import Mathlib

/-!
Verification development for the jobovy/forecast repository.

The repository consists of the notebook src/forecast.ipynb, which drives the
library modules survey_config.py, streammodel_util.py and streampepperdf.py.
The notebook records executed outputs: the background-confusion table, the
calc_nstars diagnostic printout (minimum detectable masses and completeness
fractions per survey), the final forecast table, and a NameError traceback
from streammodel_util.sample that includes the source lines of
streampepperdf._sample_aAt around the failure.

Definitions below come from two places:
  * data and code recorded verbatim in the notebook (tables, printouts and the
    traceback excerpt) are embedded directly;
  * functions whose module source is not part of the repository snapshot
    (survey_config.py with calc_nstars, calc_star_bg and load_iso_interps)
    are modelled from the specification; each such definition carries a doc
    comment starting with: Modelled from the spec.
-/

/-- Survey keys in the order of the forecast table of the notebook
(cells 56 and 57): SDSS, CFHT, DES, LSST 1-year, LSST 10-year, WFIRST. -/
def forecastOrder : List String := ["sdss", "cfht", "des", "lsst", "lsst10", "wfirst"]

/-- Pal 5 forecast counts recorded in the notebook forecast table (cell 57),
keyed by survey, in the listed order. -/
def pal5Nstars : List (String × ℤ) :=
  [("sdss", 1191), ("cfht", 3200), ("des", 2520),
   ("lsst", 3881), ("lsst10", 5176), ("wfirst", 9691)]

/-- Phoenix forecast counts recorded in the notebook forecast table (cell 57). -/
def phxNstars : List (String × ℤ) :=
  [("sdss", 576), ("cfht", 1209), ("des", 999),
   ("lsst", 1440), ("lsst10", 2003), ("wfirst", 3407)]

/-- GD-1 forecast counts recorded in the notebook forecast table (cell 57). -/
def gd1Nstars : List (String × ℤ) :=
  [("sdss", 7383), ("cfht", 12453), ("des", 10304),
   ("lsst", 15657), ("lsst10", 20350), ("wfirst", 26676)]

/-- Minimum detectable stellar masses per survey recorded in the calc_nstars
printout of the notebook (cell 56, the number after each target survey name). -/
def recordedMinMass : List (String × ℚ) :=
  [("sdss", 0.7178876489989989), ("cfht", 0.5485823537437436),
   ("des", 0.6033575963263262), ("lsst", 0.49629689491491485),
   ("lsst10", 0.40417489602602596), ("wfirst", 0.15685637648648648)]

/-- Completeness fractions per survey recorded in the calc_nstars printout of
the notebook (cell 56, last number of each line). -/
def recordedCompleteness : List (String × ℚ) :=
  [("sdss", 0.1265313453343085), ("cfht", 0.3397694518540607),
   ("des", 0.26757443262772934), ("lsst", 0.41212951376703577),
   ("lsst10", 0.549601342785451), ("wfirst", 1.0289944078230457)]

/-- The count column of a stream, read off along a given survey order,
as the notebook builds its forecast table from the nstars mapping. -/
def column (nstars : List (String × ℤ)) (order : List String) : List ℤ :=
  order.filterMap (fun k => List.lookup k nstars)

/-- Recorded minimum detectable mass of a survey. -/
def minMassOf (s : String) : ℚ := (List.lookup s recordedMinMass).getD 0

/-- Recorded completeness fraction of a survey. -/
def completenessOf (s : String) : ℚ := (List.lookup s recordedCompleteness).getD 0

/-- Survey keys ordered by increasing actual depth, that is by strictly
decreasing recorded minimum detectable mass: DES is shallower than CFHT,
so it comes before it. -/
def depthOrder : List String := ["sdss", "des", "cfht", "lsst", "lsst10", "wfirst"]

/-- A list of integer counts is non-decreasing from left to right. -/
def nondecreasing : List ℤ → Prop
  | [] => True
  | [_] => True
  | a :: b :: rest => a ≤ b ∧ nondecreasing (b :: rest)

/-- A list of rationals is strictly decreasing from left to right. -/
def strictlyDecreasing : List ℚ → Prop
  | [] => True
  | [_] => True
  | a :: b :: rest => b < a ∧ strictlyDecreasing (b :: rest)

/-- Frequency, angle and time-since-stripping draws returned by the base
sampler streamdf._sample_aAt of galpy, as in the traceback recorded in the
notebook (cell 68). -/
structure Draws where
  Om : List ℚ
  angle : List ℚ
  dt : List ℚ
deriving DecidableEq

/-- Result of a Python call: a value, or an uncaught NameError naming the
unresolved identifier. -/
inductive PyResult (α : Type) where
  | ok : α → PyResult α
  | nameError : String → PyResult α
deriving DecidableEq

/-- Local names bound in streampepperdf._sample_aAt before the guard at line
1082 of the traceback recorded in the notebook: the parameters self and n, and
the names Om, angle, dt assigned at line 1080. The name nimpact is not among
them, and no line of the function body binds it. -/
def localsAtGuard : List String := ["self", "n", "Om", "angle", "dt"]

/-- Python name resolution at the guard: a name resolves if it is a bound
local of the function or a name of the enclosing module or builtin scope. -/
def boundAtGuard (moduleNames : List String) (x : String) : Bool :=
  localsAtGuard.contains x || moduleNames.contains x

/-- Names of the module scope of streampepperdf visible from _sample_aAt, as
recorded by the executed notebook: the NameError recorded at cell 68 shows
that this scope does not bind nimpact; only the names appearing in the
recorded excerpt are modelled. -/
def streampepperdfScope : List String :=
  ["streampepperdf", "_sample_aAt", "super"]

/-- streampepperdf._sample_aAt, lines 1080 to 1084 of the traceback recorded
in the notebook: draw Om, angle, dt from the base sampler, then evaluate the
guard testing nimpact against 0; if the name nimpact does not resolve the call
raises NameError, otherwise the zero branch returns the base draw unmodified
and the nonzero branch runs the rewind-kick-readvance sequence, abstracted
here as the function kick. The value nimpactVal is the number of impacts the
name would hold were it bound. -/
def sample_aAt (moduleNames : List String) (nimpactVal : Nat)
    (kick : Draws → Draws) (base : Draws) : PyResult Draws :=
  if boundAtGuard moduleNames "nimpact" then
    if nimpactVal = 0 then PyResult.ok base
    else PyResult.ok (kick base)
  else PyResult.nameError "nimpact"

/-- galpy streamdf.sample, line 2930 of the recorded traceback: it first calls
self._sample_aAt and unpacks the triple, so an error from _sample_aAt
propagates. -/
def streamdf_sample (moduleNames : List String) (nimpactVal : Nat)
    (kick : Draws → Draws) (base : Draws) : PyResult Draws :=
  match sample_aAt moduleNames nimpactVal kick base with
  | PyResult.ok d => PyResult.ok d
  | PyResult.nameError x => PyResult.nameError x

/-- Sky coordinates of the sampled stars: longitude, latitude, distance. -/
structure SkyCoords where
  lon : List ℚ
  lat : List ℚ
  dist : List ℚ
deriving DecidableEq

/-- streammodel_util.sample, lines 32 to 36 of the recorded traceback: after
setting up the impact-rate simulation it calls
stream_config.sdf[tail].sample(n, lb=True) and converts the result to sky
coordinates, abstracted here as toSky; an error from the draw propagates. -/
def streammodel_util_sample (moduleNames : List String) (nimpactVal : Nat)
    (kick : Draws → Draws) (toSky : Draws → SkyCoords) (base : Draws) :
    PyResult SkyCoords :=
  match streamdf_sample moduleNames nimpactVal kick base with
  | PyResult.ok d => PyResult.ok (toSky d)
  | PyResult.nameError x => PyResult.nameError x

/-- Modelled from the spec: the survey_config.py module is not part of the
repository snapshot, so its SurveyConfig is modelled from sections 3 and 4.2
of the specification: a survey has a name and a depth/error model whose
inversion at the distance of the stream gives the minimum detectable stellar
mass, carried here directly as minMass. -/
structure SurveyConfig where
  name : String
  minMass : ℚ
deriving DecidableEq

/-- Modelled from the spec: the StreamConfig of survey_config.py and
make_streampepper_models.py, with the fields the notebook uses: the stream
name, the ntimes tag of the model pickles, the background file name, the
optional custom stream coordinate system, and the results mapping nstars from
survey key to forecast count. -/
structure StreamConfig where
  name : String
  ntimes : String
  bgfname : String
  streamCoord : Option String
  nstars : String → Option ℤ

/-- Modelled from the spec: the new_surveys argument of calc_nstars is either
an explicit collection of surveys or the sentinel meaning all registered
surveys. -/
inductive SurveyTargets where
  | explicit : List SurveyConfig → SurveyTargets
  | allRegistered : SurveyTargets

/-- Resolution of the new_surveys argument against the registered surveys. -/
def resolveTargets (t : SurveyTargets) (registered : List SurveyConfig) :
    List SurveyConfig :=
  match t with
  | SurveyTargets.explicit l => l
  | SurveyTargets.allRegistered => registered

/-- Modelled from the spec: the completeness fraction of section 4.2, the
integral of the stellar mass function from the minimum detectable mass m up
to the upper mass limit mmax of the population, relative to the normalizing
integral from the lower limit m0 to mmax. Phi is the cumulative integral of
the mass function, so that the integral over an interval is the difference of
Phi at its endpoints; the recorded WFIRST fraction above 1 shows that a
survey minimum mass may lie below m0. -/
def completeness (Phi : ℚ → ℚ) (mmax m0 m : ℚ) : ℚ :=
  (Phi mmax - Phi m) / (Phi mmax - Phi m0)

/-- Modelled from the spec: the forecast count of calc_nstars for one target
survey, obtained by scaling the known reference count refN by the ratio of the
target completeness fraction to the reference completeness fraction and
truncating to an integer, matching the recorded table (for Pal 5 with
reference CFHT, 3200 times 0.1265313453343085 over 0.3397694518540607 is
about 1191.69, recorded as 1191). -/
def forecastCount (Phi : ℚ → ℚ) (mmax m0 : ℚ) (refN : ℤ) (refMin targMin : ℚ) : ℤ :=
  Int.floor ((refN : ℚ) * completeness Phi mmax m0 targMin /
    completeness Phi mmax m0 refMin)

/-- Assignment loop over the nstars mapping: write each entry in turn, as the
Python dict assignments of calc_nstars do. -/
def writeCounts (m : String → Option ℤ) : List (String × ℤ) → String → Option ℤ
  | [] => m
  | p :: rest => writeCounts (fun k => if k = p.1 then some p.2 else m k) rest

/-- Modelled from the spec: survey_config.calc_nstars of section 4.2. It
resolves the new_surveys argument, reads the known star count of the stream in
the reference survey from the nstars mapping (failing if it is absent), and
for each target survey writes the truncated scaled forecast count under the
target key; the reference survey and the target surveys are read only. The
result carries the updated stream configuration together with the reference
and target surveys as the call leaves them. -/
def calc_nstars (Phi : ℚ → ℚ) (mmax m0 : ℚ) (cfg : StreamConfig)
    (ref : SurveyConfig) (newSurveys : SurveyTargets)
    (registered : List SurveyConfig) :
    Except String (StreamConfig × SurveyConfig × List SurveyConfig) :=
  let targets := resolveTargets newSurveys registered
  match cfg.nstars ref.name with
  | none => Except.error ("reference star count for " ++ ref.name ++ " is absent")
  | some refN =>
      let entries := targets.map (fun s =>
        (s.name, forecastCount Phi mmax m0 refN ref.minMass s.minMass))
      Except.ok ({ cfg with nstars := writeCounts cfg.nstars entries }, ref, targets)

/-- A background field star with its mass and true photometry, one row of the
Galaxia catalog over the fixed one-degree generation patch. -/
structure BgStar where
  mass : ℚ
  mag : ℚ
  color : ℚ
deriving DecidableEq

/-- Modelled from the spec: survey_config.calc_star_bg of section 4.1. For
each star of the background field model, evaluate the detection probability of
the survey isochrone selection model at the true photometry of the star
(detprob, accounting for the photometric error model), sum over all background
stars, and scale by the ratio of the observed solid angle of the survey to the
generation solid angle of the background model. -/
def calc_star_bg (detprob : BgStar → ℚ) (bg : List BgStar)
    (omegaObs omegaGen : ℚ) : ℚ :=
  (omegaObs / omegaGen) * ((bg.map detprob).sum)

/-- Modelled from the spec: SurveyConfig.load_iso_interps of sections 3 and 6.
The isochrone selection model of a survey is cached on disk; remake rebuilds
it with build, save persists a rebuilt model, and with remake false the
existing cache is read without refresh, a missing cache being reported as a
must-rebuild condition. The result is the selection model together with the
cache state the call leaves on disk. -/
def load_iso_interps {α : Type} (remake save : Bool) (build : Unit → α)
    (diskCache : Option α) : Except String (α × Option α) :=
  if remake then
    let fresh := build ()
    Except.ok (fresh, if save then some fresh else diskCache)
  else
    match diskCache with
    | some cached => Except.ok (cached, diskCache)
    | none => Except.error "isochrone cache absent: must rebuild with remake"

/-- Example stream configuration for evaluating calc_nstars concretely: Pal 5
with the recorded CFHT reference count 3200 and no other count known. -/
def pal5Example : StreamConfig :=
  { name := "pal5", ntimes := "64sampling", bgfname := "pal5_bg.fits",
    streamCoord := none,
    nstars := fun k => if k = "cfht" then some 3200 else none }

/-- Example reference survey with minimum detectable mass one half. -/
def cfhtExample : SurveyConfig := { name := "cfht", minMass := 1/2 }

/-- Example target survey with minimum detectable mass three quarters. -/
def sdssExample : SurveyConfig := { name := "sdss", minMass := 3/4 }

/-- The stream configuration calc_nstars produces for the example inputs with
the identity cumulative mass integral on the unit mass interval. -/
def pal5ExampleAfter : StreamConfig :=
  { pal5Example with
    nstars := writeCounts pal5Example.nstars [("sdss", forecastCount id 1 0 3200 (1/2) (3/4))] }

/-- C3 counterexample: the Pal 5 count column of the recorded forecast table is
not non-decreasing along the listed order SDSS, CFHT, DES, LSST-1yr,
LSST-10yr, WFIRST: the CFHT entry 3200 exceeds the DES entry 2520. -/
theorem forecast_not_monotone_in_listed_order :
    ¬ nondecreasing (column pal5Nstars forecastOrder) := by
  simp [column, pal5Nstars, forecastOrder, List.lookup, nondecreasing]

/-- C3 amended: the listed order is not ordered by increasing depth (the
recorded minimum mass of CFHT is below that of DES, so CFHT is the deeper
survey); along the order of strictly increasing actual depth, SDSS, DES, CFHT,
LSST-1yr, LSST-10yr, WFIRST, the recorded count column of each of the three
streams is non-decreasing. -/
theorem forecast_monotone_in_depth_order :
    minMassOf "cfht" < minMassOf "des" ∧
    strictlyDecreasing (depthOrder.map minMassOf) ∧
    nondecreasing (column pal5Nstars depthOrder) ∧
    nondecreasing (column phxNstars depthOrder) ∧
    nondecreasing (column gd1Nstars depthOrder) := by
  refine ⟨?_, ?_, ?_, ?_, ?_⟩ <;>
    simp [column, pal5Nstars, phxNstars, gd1Nstars, depthOrder, minMassOf,
      recordedMinMass, List.lookup, nondecreasing, strictlyDecreasing] <;>
    norm_num

/-- C9 counterexample: the completeness fraction computed inside calc_nstars
for WFIRST, as recorded by the notebook printout, is 1.0289944078230457,
strictly greater than 1. -/
theorem wfirst_completeness_exceeds_one : 1 < completenessOf "wfirst" := by
  simp [completenessOf, recordedCompleteness, List.lookup]
  norm_num

/-- C9 amended: every recorded completeness fraction is positive; those of
SDSS, CFHT, DES, LSST-1yr and LSST-10yr lie in the interval from 0 to 1, but
the WFIRST fraction exceeds 1, because the minimum detectable mass of WFIRST
lies below the lower limit of the normalizing mass-function integral. -/
theorem recorded_completeness_bounds :
    (0 < completenessOf "sdss" ∧ completenessOf "sdss" ≤ 1) ∧
    (0 < completenessOf "cfht" ∧ completenessOf "cfht" ≤ 1) ∧
    (0 < completenessOf "des" ∧ completenessOf "des" ≤ 1) ∧
    (0 < completenessOf "lsst" ∧ completenessOf "lsst" ≤ 1) ∧
    (0 < completenessOf "lsst10" ∧ completenessOf "lsst10" ≤ 1) ∧
    (0 < completenessOf "wfirst") := by
  refine ⟨?_, ?_, ?_, ?_, ?_, ?_⟩ <;>
    simp [completenessOf, recordedCompleteness, List.lookup] <;>
    norm_num

/-- C10: every invocation of streammodel_util.sample raises NameError for the
name nimpact inside streampepperdf._sample_aAt, for every base draw, every
kick sequence, every sky conversion and every impact count of the model,
because nimpact is bound neither among the locals of _sample_aAt nor in any
enclosing scope (as the recorded run shows). -/
theorem sample_raises_NameError (moduleNames : List String) (nimpactVal : Nat)
    (kick : Draws → Draws) (toSky : Draws → SkyCoords) (base : Draws)
    (hscope : "nimpact" ∉ moduleNames) :
    streammodel_util_sample moduleNames nimpactVal kick toSky base =
      PyResult.nameError "nimpact" := by
  simp [streammodel_util_sample, streamdf_sample, sample_aAt, boundAtGuard,
    localsAtGuard, hscope]

/-- Witness for C10 at the scope recorded by the notebook run, a model with
three recorded impacts, the identity kick and conversion of the one-star
draw Om=[1], angle=[2], dt=[3]. -/
theorem sample_raises_NameError_witness :
    "nimpact" ∉ streampepperdfScope ∧
    streammodel_util_sample streampepperdfScope 3 id
        (fun d => SkyCoords.mk d.Om d.angle d.dt)
        (Draws.mk [1] [2] [3]) = PyResult.nameError "nimpact" :=
  ⟨by decide,
   sample_raises_NameError streampepperdfScope 3 id
     (fun d => SkyCoords.mk d.Om d.angle d.dt)
     (Draws.mk [1] [2] [3]) (by decide)⟩

/-- C1 divergence witness: even on the zero-impact path (the model holds zero
impacts, so the guard would test 0 against 0 and take the early return), the
recorded code raises NameError instead of returning the base draw unmodified,
because evaluating the guard condition itself fails. -/
theorem sample_aAt_zero_impacts_raises :
    sample_aAt streampepperdfScope 0 id (Draws.mk [5] [7] [11]) =
      PyResult.nameError "nimpact" := by
  decide

/-- C2: for a fixed stream, reference survey and reference count, a strictly
deeper target survey (strictly lower minimum detectable mass) is forecast at
least as many stars by calc_nstars, because the cumulative mass-function
integral Phi is monotone, so the completeness fraction is antitone in the
minimum mass and the truncated scaled count is monotone in the fraction. -/
theorem forecastCount_monotone_in_depth (Phi : ℚ → ℚ) (mmax m0 : ℚ) (refN : ℤ)
    (refMin mA mB : ℚ) (hmono : Monotone Phi) (hN : 0 ≤ refN)
    (hnorm : 0 < Phi mmax - Phi m0)
    (href : 0 < completeness Phi mmax m0 refMin)
    (hAB : mA < mB) :
    forecastCount Phi mmax m0 refN refMin mB ≤
      forecastCount Phi mmax m0 refN refMin mA := by
  have hBA : completeness Phi mmax m0 mB ≤ completeness Phi mmax m0 mA := by
    unfold completeness
    exact (div_le_div_iff_of_pos_right hnorm).mpr
      (sub_le_sub_left (hmono hAB.le) _)
  have hN' : (0 : ℚ) ≤ (refN : ℚ) := by exact_mod_cast hN
  unfold forecastCount
  exact Int.floor_le_floor
    ((div_le_div_iff_of_pos_right href).mpr (mul_le_mul_of_nonneg_left hBA hN'))

/-- Witness for C2 with the identity cumulative integral on the unit mass
interval, reference count 3200, reference minimum mass one half, and target
surveys with minimum masses one quarter (deeper) and one third (shallower). -/
theorem forecastCount_monotone_in_depth_witness :
    (1/4 : ℚ) < 1/3 ∧ (0 : ℤ) ≤ 3200 ∧
    forecastCount id 1 0 3200 (1/2) (1/3) ≤
      forecastCount id 1 0 3200 (1/2) (1/4) :=
  ⟨by norm_num, by norm_num,
   forecastCount_monotone_in_depth id 1 0 3200 (1/2) (1/4) (1/3)
     (fun a b h => h) (by norm_num) (by norm_num)
     (by unfold completeness; norm_num) (by norm_num)⟩

/-- C4: with every per-star detection probability between 0 and 1, a
nonnegative observed solid angle and a positive generation solid angle, the
confusion count of calc_star_bg is nonnegative and at most the size of the
background catalog scaled by the footprint ratio; and for a survey too shallow
to detect any background star (all detection probabilities zero) it is exactly
zero. The function is total, so no input raises. -/
theorem calc_star_bg_bounds (detprob : BgStar → ℚ) (bg : List BgStar)
    (omegaObs omegaGen : ℚ)
    (hp : ∀ s ∈ bg, 0 ≤ detprob s ∧ detprob s ≤ 1)
    (hobs : 0 ≤ omegaObs) (hgen : 0 < omegaGen) :
    0 ≤ calc_star_bg detprob bg omegaObs omegaGen ∧
    calc_star_bg detprob bg omegaObs omegaGen ≤
      (omegaObs / omegaGen) * (bg.length : ℚ) ∧
    ((∀ s ∈ bg, detprob s = 0) →
      calc_star_bg detprob bg omegaObs omegaGen = 0) := by
  have hratio : 0 ≤ omegaObs / omegaGen := div_nonneg hobs hgen.le
  refine ⟨?_, ?_, ?_⟩
  · refine mul_nonneg hratio (List.sum_nonneg ?_)
    intro x hx
    obtain ⟨s, hs, rfl⟩ := List.mem_map.mp hx
    exact (hp s hs).1
  · have hsum : (bg.map detprob).sum ≤ (bg.map detprob).length • (1 : ℚ) := by
      refine List.sum_le_card_nsmul _ _ ?_
      intro x hx
      obtain ⟨s, hs, rfl⟩ := List.mem_map.mp hx
      exact (hp s hs).2
    have hsum' : (bg.map detprob).sum ≤ (bg.length : ℚ) := by
      simpa [nsmul_eq_mul] using hsum
    exact mul_le_mul_of_nonneg_left hsum' hratio
  · intro h0
    have hz : (bg.map detprob).sum = 0 := by
      refine List.sum_eq_zero ?_
      intro x hx
      obtain ⟨s, hs, rfl⟩ := List.mem_map.mp hx
      exact h0 s hs
    simp [calc_star_bg, hz]

/-- Witness for C4 on a two-star background with detection probability one
half everywhere, observed solid angle 2 and generation solid angle 1. -/
theorem calc_star_bg_bounds_witness :
    0 ≤ calc_star_bg (fun _ => 1/2) [BgStar.mk 1 2 3, BgStar.mk 4 5 6] 2 1 ∧
    calc_star_bg (fun _ => 1/2) [BgStar.mk 1 2 3, BgStar.mk 4 5 6] 2 1 ≤
      ((2 : ℚ) / 1) * (2 : ℚ) := by
  obtain ⟨h1, h2, -⟩ :=
    calc_star_bg_bounds (fun _ => 1/2) [BgStar.mk 1 2 3, BgStar.mk 4 5 6] 2 1
      (by intro s _; norm_num) (by norm_num) (by norm_num)
  exact ⟨h1, by simpa using h2⟩

/-- C5: calc_star_bg is linear in the observed footprint of the survey:
doubling the observed solid angle while holding the background catalog, the
detection model and the generation patch fixed exactly doubles the result. -/
theorem calc_star_bg_footprint_linear (detprob : BgStar → ℚ) (bg : List BgStar)
    (omegaObs omegaGen : ℚ) :
    calc_star_bg detprob bg (2 * omegaObs) omegaGen =
      2 * calc_star_bg detprob bg omegaObs omegaGen := by
  unfold calc_star_bg
  ring

/-- Assigned keys differ: writing entries whose keys avoid k leaves the value
of the mapping at k unchanged. -/
theorem writeCounts_not_mem (entries : List (String × ℤ))
    (m : String → Option ℤ) (k : String)
    (hk : k ∉ entries.map Prod.fst) : writeCounts m entries k = m k := by
  induction entries generalizing m with
  | nil => rfl
  | cons p rest ih =>
      simp only [List.map_cons, List.mem_cons, not_or] at hk
      rw [writeCounts, ih _ hk.2]
      simp [hk.1]

/-- With pairwise distinct keys, every written entry is afterwards read back
at its key. -/
theorem writeCounts_mem (entries : List (String × ℤ)) (m : String → Option ℤ)
    (p : String × ℤ) (hnd : (entries.map Prod.fst).Nodup) (hp : p ∈ entries) :
    writeCounts m entries p.1 = some p.2 := by
  induction entries generalizing m with
  | nil => cases hp
  | cons q rest ih =>
      simp only [List.map_cons, List.nodup_cons] at hnd
      rcases List.mem_cons.mp hp with h | h
      · subst h
        rw [writeCounts, writeCounts_not_mem rest _ p.1 hnd.1]
        simp
      · exact ih _ hnd.2 h

/-- C6: when the reference count is present and the target survey names are
pairwise distinct, calc_nstars changes nothing but the nstars mapping of the
stream configuration: name, ntimes tag, background file and coordinate system
are unchanged, the reference survey and the target surveys come back exactly
as passed, keys outside the target set keep their previous counts, and each
target key holds the integer-truncated forecast count. -/
theorem calc_nstars_frame (Phi : ℚ → ℚ) (mmax m0 : ℚ) (cfg : StreamConfig)
    (ref : SurveyConfig) (newSurveys : SurveyTargets)
    (registered : List SurveyConfig) (refN : ℤ)
    (cfg2 : StreamConfig) (ref2 : SurveyConfig) (targs2 : List SurveyConfig)
    (hnodup : ((resolveTargets newSurveys registered).map SurveyConfig.name).Nodup)
    (hrefN : cfg.nstars ref.name = some refN)
    (h : calc_nstars Phi mmax m0 cfg ref newSurveys registered =
      Except.ok (cfg2, ref2, targs2)) :
    cfg2.name = cfg.name ∧ cfg2.ntimes = cfg.ntimes ∧
    cfg2.bgfname = cfg.bgfname ∧ cfg2.streamCoord = cfg.streamCoord ∧
    ref2 = ref ∧ targs2 = resolveTargets newSurveys registered ∧
    (∀ k, k ∉ (resolveTargets newSurveys registered).map SurveyConfig.name →
      cfg2.nstars k = cfg.nstars k) ∧
    (∀ s ∈ resolveTargets newSurveys registered,
      cfg2.nstars s.name =
        some (forecastCount Phi mmax m0 refN ref.minMass s.minMass)) := by
  simp only [calc_nstars, hrefN, Except.ok.injEq, Prod.mk.injEq] at h
  obtain ⟨hcfg, href2, htargs⟩ := h
  subst hcfg
  subst href2
  subst htargs
  refine ⟨rfl, rfl, rfl, rfl, rfl, rfl, ?_, ?_⟩
  · intro k hk
    refine writeCounts_not_mem _ _ _ ?_
    simpa [List.map_map, Function.comp] using hk
  · intro s hs
    have hmem : (s.name, forecastCount Phi mmax m0 refN ref.minMass s.minMass) ∈
        (resolveTargets newSurveys registered).map
          (fun t => (t.name, forecastCount Phi mmax m0 refN ref.minMass t.minMass)) :=
      List.mem_map_of_mem _ hs
    have hnd : (((resolveTargets newSurveys registered).map
        (fun t => (t.name, forecastCount Phi mmax m0 refN ref.minMass t.minMass))).map
          Prod.fst).Nodup := by
      simpa [List.map_map, Function.comp] using hnodup
    exact writeCounts_mem _ _ _ hnd hmem

/-- Witness for C6 on the example Pal 5 configuration with reference CFHT
count 3200 and the single target SDSS: the background file name, coordinate
system and the CFHT entry keep their values and the SDSS key receives the
forecast count. -/
theorem calc_nstars_frame_witness :
    pal5ExampleAfter.bgfname = pal5Example.bgfname ∧
    pal5ExampleAfter.streamCoord = pal5Example.streamCoord ∧
    pal5ExampleAfter.nstars "cfht" = pal5Example.nstars "cfht" ∧
    pal5ExampleAfter.nstars "sdss" =
      some (forecastCount id 1 0 3200 (1/2) (3/4)) := by
  obtain ⟨-, -, h3, h4, -, -, hframe, htarg⟩ :=
    calc_nstars_frame id 1 0 pal5Example cfhtExample
      (SurveyTargets.explicit [sdssExample]) [] 3200 pal5ExampleAfter
      cfhtExample [sdssExample]
      (List.nodup_singleton "sdss") rfl (by rfl)
  refine ⟨h3, h4, hframe "cfht" (by simp [sdssExample, resolveTargets]), ?_⟩
  simpa [cfhtExample, sdssExample] using
    htarg sdssExample (List.mem_singleton.mpr rfl)

/-- C7: with remake and save both false, load_iso_interps reads the existing
on-disk cache without refreshing it, and a second call in succession returns
the same selection-model contents over the same cache state. -/
theorem load_iso_interps_idempotent {α : Type} (build : Unit → α)
    (disk : Option α) (m : α) (hcache : disk = some m) :
    load_iso_interps false false build disk = Except.ok (m, disk) ∧
    (∀ disk2 : Option α,
      load_iso_interps false false build disk = Except.ok (m, disk2) →
      load_iso_interps false false build disk2 = Except.ok (m, disk2)) := by
  subst hcache
  refine ⟨rfl, ?_⟩
  intro disk2 h
  simp only [load_iso_interps, Bool.false_eq_true, if_false,
    Except.ok.injEq, Prod.mk.injEq] at h
  obtain ⟨-, h2⟩ := h
  subst h2
  rfl

/-- Witness for C7 on a natural-number cache holding 5, with a rebuild
function that would produce 7 were it consulted. -/
theorem load_iso_interps_idempotent_witness :
    load_iso_interps false false (fun _ => (7 : ℕ)) (some 5) =
      Except.ok (5, some 5) :=
  (load_iso_interps_idempotent (fun _ => (7 : ℕ)) (some 5) 5 rfl).1

/-- C8: passing the sentinel meaning all registered surveys to calc_nstars
gives exactly the behaviour of passing the explicit list of all registered
surveys. -/
theorem calc_nstars_all_sentinel (Phi : ℚ → ℚ) (mmax m0 : ℚ)
    (cfg : StreamConfig) (ref : SurveyConfig)
    (registered : List SurveyConfig) :
    calc_nstars Phi mmax m0 cfg ref SurveyTargets.allRegistered registered =
      calc_nstars Phi mmax m0 cfg ref
        (SurveyTargets.explicit registered) registered := rfl
